import Mathlib

/-!
Shallow embedding of the `general_pipeline` execution engine
(`src/general_pipeline/core/pipeline_executor.py`,
`core/basic_runner.py`, `models/env_config.py`).

Python dictionaries are modelled as association lists with
insert-overwrite semantics (`dictInsert` / `dictUpdate`); filesystem
and subprocess outcomes are supplied by explicit oracle records, and
side effects (git clones, env installs, process spawns, signals,
warnings) are recorded as event traces.
-/

namespace GeneralPipeline

/-- Lookup in a Python-dict model: first binding for the key. -/
def lookupD (m : List (String × String)) (k : String) : Option String :=
  (m.find? (fun p => p.1 == k)).map (fun p => p.2)

/-- Python `d[k] = v` on the dict model: overwrite the binding if the key
is present, append it otherwise. -/
def dictInsert (m : List (String × String)) (k v : String) :
    List (String × String) :=
  if m.any (fun p => p.1 == k) then
    m.map (fun p => if p.1 == k then (k, v) else p)
  else m ++ [(k, v)]

/-- Python `d.update(upd)` on the dict model: insert each pair of `upd`
in order. -/
def dictUpdate (m upd : List (String × String)) : List (String × String) :=
  upd.foldl (fun acc p => dictInsert acc p.1 p.2) m

/-- The value the key ends up with after `d.update(upd)` when it came
from `upd`: the last occurrence wins. -/
def lastVal (upd : List (String × String)) (k : String) : Option String :=
  upd.foldl (fun acc p => if p.1 == k then some p.2 else acc) none

/-- Model of `PipelineExecutor.execute_operator` lines 166-177: the merged
child-process environment.  Base process environment, overlaid by
`env_config.activate_env()`, then `operator.extra_env_vars`, then the
standard identity variables the executor always sets. -/
def prepare_env_vars (base activation extra : List (String × String))
    (pipeline_id node_id operator_id work_dir : String) :
    List (String × String) :=
  dictUpdate (dictUpdate (dictUpdate base activation) extra)
    [("PIPELINE_ID", pipeline_id), ("NODE_ID", node_id),
     ("OPERATOR_ID", operator_id), ("WORK_DIR", work_dir)]

/-- One iteration of the wait loop observes `process.poll()` (`none`
while the process is alive) and the elapsed wall-clock seconds
`time.time() - start_time`. -/
abbrev LoopObs := Option Int × Nat

/-- Outcome of the wait loop of `execute_operator` (lines 196-223). -/
inductive LoopResult where
  | finished (code : Int)
  | timedOut
  | running
deriving DecidableEq

/-- The wait loop of `execute_operator`: each turn first polls the
process; if it has exited the loop breaks with its return code, else if
the elapsed time exceeds the timeout the termination branch fires. An
exhausted observation list means the process is still being waited on. -/
def waitLoop (timeout : Nat) : List LoopObs → LoopResult
  | [] => .running
  | (pollRes, elapsed) :: rest =>
    match pollRes with
    | some c => .finished c
    | none =>
      if elapsed > timeout then .timedOut
      else waitLoop timeout rest

/-- Observable events of `execute_operator`: the `subprocess.Popen`
call (command, working directory, environment), and the timeout
escalation steps. -/
inductive ExecEvent where
  | popen (cmd cwd : String) (env : List (String × String))
  | sigterm
  | graceSleep (secs : Nat)
  | kill
deriving DecidableEq

/-- Operator data consumed by `execute_operator`; `activation` is the
dictionary returned by `env_config.activate_env()`. -/
structure OperatorModel where
  operator_id : String
  code_path : Option String
  start_command : String
  timeout : Nat
  extra_env_vars : List (String × String)
  activation : List (String × String)
deriving DecidableEq

/-- Oracle for one `execute_operator` call: whether `Popen` succeeds,
the poll/clock observations of the wait loop, and whether the process
is still alive after the 5-second grace sleep. -/
structure SpawnOracle where
  spawnOk : Bool
  obs : List LoopObs
  aliveAfterGrace : Bool
deriving DecidableEq

/-- Python renders an unset path as `str(None) = "None"`; this is the
`cwd` string `Popen` receives when `code_path` was never resolved. -/
def cwdStr : Option String → String
  | none => "None"
  | some p => p

/-- Model of `PipelineExecutor.execute_operator` (lines 157-235): merge the
environment, spawn the process (any exception is caught and mapped to
exit code 3), run the wait loop; a timeout sends SIGTERM, sleeps 5
seconds, kills if still alive and returns 4; a normal exit returns the
process's own code.  `none` as first component means the loop is still
running (no observation decided it). -/
def execute_operator (base : List (String × String))
    (pipeline_id work_dir : String) (op : OperatorModel)
    (node_id : String) (o : SpawnOracle) :
    Option Int × List ExecEvent :=
  let env := prepare_env_vars base op.activation op.extra_env_vars
    pipeline_id node_id op.operator_id work_dir
  let spawnEv := ExecEvent.popen op.start_command (cwdStr op.code_path) env
  if o.spawnOk = false then
    (some 3, [spawnEv])
  else
    match waitLoop op.timeout o.obs with
    | .finished c => (some c, [spawnEv])
    | .timedOut =>
      (some 4, [spawnEv, .sigterm, .graceSleep 5] ++
        (if o.aliveAfterGrace then [.kill] else []))
    | .running => (none, [spawnEv])

/-! ## Pipeline-level model: `PipelineExecutor.run` and its phases -/

/-- Operator configuration fields `run` consumes
(`models/operator_config.py`); `env_type` stands for
`type(operator.env_config).__name__`. -/
structure OperatorConfigModel where
  operator_id : String
  upstream_dependencies : List String
  env_type : String
  env_name : String
deriving DecidableEq

/-- Node data from `models/node_config.py`: node identity and its ordered operator-id
list. -/
structure NodeModel where
  node_id : String
  operator_ids : List String
deriving DecidableEq

/-- The pipeline configuration fields `run` consumes
(`models/pipeline_config.py`). -/
structure PipelineModel where
  pipeline_id : String
  work_dir : String
  operators : List OperatorConfigModel
  nodes : List NodeModel
deriving DecidableEq

/-- Model of `self.operator_map[id]`: the map is a Python dict filled by
iterating `config.operators`, so a duplicated id keeps the last
occurrence. -/
def opMapLookup (ops : List OperatorConfigModel) (id : String) :
    Option OperatorConfigModel :=
  (ops.filter (fun op => op.operator_id == id)).getLast?

/-- The message `DependencyMissingError` is raised with
(`pipeline_executor.py` line 74). -/
def depMissingMsg (opId depId : String) : String :=
  "算子 " ++ opId ++ " 依赖的算子 " ++ depId ++ " 不存在"

/-- Model of `PipelineExecutor.validate_dependencies` (lines 67-78): the first
operator/dependency pair whose dependency id is absent from the
operator map, `none` when validation passes. -/
def validate_dependencies (ops : List OperatorConfigModel) :
    Option (String × String) :=
  ops.findSome? (fun op =>
    (op.upstream_dependencies.find?
      (fun d => (opMapLookup ops d).isNone)).map
      (fun d => (op.operator_id, d)))

/-- Side effects of `run` that touch the outside world: a `git clone`,
an `install_env` invocation (keyed by the environment cache key), and a
process spawn for an operator inside a node. -/
inductive RunAction where
  | gitClone (opId : String)
  | installEnv (envKey : String)
  | spawn (opId nodeId : String)
deriving DecidableEq

/-- Oracle for one `run`: filesystem state and subprocess outcomes.
`installError k = some msg` means `install_env` for cache key `k`
raises `EnvInstallError msg`; `execCode` gives the exit code
`execute_operator` returns for an operator inside a node. -/
structure RunOracle where
  codeExists : String → Bool
  cloneOk : String → Bool
  envExists : String → Bool
  installError : String → Option String
  execCode : String → String → Int

/-- Target path of `clone_operator_code` (line 86):
`work_dir / "operators" / operator_id`. -/
def clonedPath (workDir opId : String) : String :=
  workDir ++ "/operators/" ++ opId

/-- The clone phase of `run` (lines 247-249 with
`clone_operator_code`, lines 80-107): skip operators whose code path
already exists, otherwise `git clone`; a failing clone raises and ends
the phase.  Returns the trace of clones and whether the phase
completed. -/
def clonePhase (workDir : String) (o : RunOracle) :
    List OperatorConfigModel → List RunAction × Bool
  | [] => ([], true)
  | op :: rest =>
    if o.codeExists (clonedPath workDir op.operator_id) then
      clonePhase workDir o rest
    else if o.cloneOk op.operator_id then
      let (tr, ok) := clonePhase workDir o rest
      (RunAction.gitClone op.operator_id :: tr, ok)
    else ([RunAction.gitClone op.operator_id], false)

/-- Environment-cache key (line 116): `f"{env_type}_{env_config.env_name}"`. -/
def envKey (env_type env_name : String) : String :=
  env_type ++ "_" ++ env_name

/-- Resolved environment path: `env_root_path / env_name` with
`env_root_path = work_dir / "envs"` (lines 124-125 and
`get_full_env_path`). -/
def envFullPath (workDir env_name : String) : String :=
  workDir ++ "/envs/" ++ env_name

/-- Model of `PipelineExecutor.setup_virtual_env` (lines 109-155) for one
operator: cache hit returns at once; otherwise install only when the
resolved path does not exist; a raised `EnvInstallError` propagates
before the cache is written.  Returns the new cache, the install
actions performed and the raised error, if any. -/
def setup_virtual_env (o : RunOracle) (workDir : String)
    (cache : List (String × String)) (env_type env_name : String) :
    List (String × String) × List RunAction × Option String :=
  let key := envKey env_type env_name
  if (lookupD cache key).isSome then (cache, [], none)
  else
    let fullPath := envFullPath workDir env_name
    if o.envExists fullPath then
      (dictInsert cache key fullPath, [], none)
    else
      match o.installError key with
      | some msg => (cache, [RunAction.installEnv key], some msg)
      | none => (dictInsert cache key fullPath,
          [RunAction.installEnv key], none)

/-- The provisioning phase of `run` (lines 252-253): fold
`setup_virtual_env` over the operators, stopping at the first raised
`EnvInstallError`. -/
def setupPhase (o : RunOracle) (workDir : String)
    (cache : List (String × String)) :
    List OperatorConfigModel →
    List RunAction × List (String × String) × Option String
  | [] => ([], cache, none)
  | op :: rest =>
    let (c1, a1, e1) := setup_virtual_env o workDir cache
      op.env_type op.env_name
    match e1 with
    | some msg => (a1, c1, some msg)
    | none =>
      let (tr, c2, e2) := setupPhase o workDir c1 rest
      (a1 ++ tr, c2, e2)

/-- The inner loop of the execution phase (lines 259-268): run the
operators of one node in order; a missing operator id returns 1, a
nonzero exit code aborts with that code; `none` means the node
completed. -/
def execNodeOps (ops : List OperatorConfigModel) (o : RunOracle)
    (nodeId : String) : List String → Option Int × List RunAction
  | [] => (none, [])
  | opId :: rest =>
    match opMapLookup ops opId with
    | none => (some 1, [])
    | some _ =>
      let c := o.execCode opId nodeId
      if c ≠ 0 then (some c, [RunAction.spawn opId nodeId])
      else
        let (r, tr) := execNodeOps ops o nodeId rest
        (r, RunAction.spawn opId nodeId :: tr)

/-- The execution phase of `run` (lines 256-273): nodes in declared
order; the first nonzero code aborts the pipeline, full success
returns 0. -/
def execPhase (ops : List OperatorConfigModel) (o : RunOracle) :
    List NodeModel → Int × List RunAction
  | [] => (0, [])
  | node :: rest =>
    match execNodeOps ops o node.node_id node.operator_ids with
    | (some code, tr) => (code, tr)
    | (none, tr) =>
      let (c, tr2) := execPhase ops o rest
      (c, tr ++ tr2)

namespace PipelineExecutor

/-- Model of `PipelineExecutor.run` (lines 237-277): validate, clone, provision,
execute; any exception raised inside the `try` block (notably
`DependencyMissingError`, a failed clone, `EnvInstallError`) is caught
by the blanket handler and mapped to exit code 3. -/
def run (cfg : PipelineModel) (o : RunOracle) : Int × List RunAction :=
  match validate_dependencies cfg.operators with
  | some _ => (3, [])
  | none =>
    let (ctr, cok) := clonePhase cfg.work_dir o cfg.operators
    if cok = false then (3, ctr)
    else
      let (str_, _, err) := setupPhase o cfg.work_dir [] cfg.operators
      match err with
      | some _ => (3, ctr ++ str_)
      | none =>
        let (code, etr) := execPhase cfg.operators o cfg.nodes
        (code, ctr ++ str_ ++ etr)

end PipelineExecutor

/-- The per-operator exit codes of a run, flattened in declared node
order then node-local operator order. -/
def scopedCodes (cfg : PipelineModel) (o : RunOracle) : List Int :=
  cfg.nodes.flatMap (fun n =>
    n.operator_ids.map (fun i => o.execCode i n.node_id))

/-- First nonzero element of a code list, 0 when all are zero. -/
def firstNonzero : List Int → Int
  | [] => 0
  | c :: rest => if c ≠ 0 then c else firstNonzero rest

/-- First nonzero element of a code list, `none` when all are zero:
the abort code of one node, if any. -/
def firstNonzeroO : List Int → Option Int
  | [] => none
  | c :: rest => if c ≠ 0 then some c else firstNonzeroO rest

/-- The spawn trace fail-fast semantics dictates: every operator up to
and including the first one with a nonzero code, nothing after it. -/
def failFastSpawns (exec : String → String → Int) :
    List (String × String) → List RunAction
  | [] => []
  | (i, n) :: rest =>
    RunAction.spawn i n ::
      (if exec i n ≠ 0 then [] else failFastSpawns exec rest)

/-- The (operator id, node id) pairs of a run in execution order. -/
def scopedPairs (cfg : PipelineModel) : List (String × String) :=
  cfg.nodes.flatMap (fun n => n.operator_ids.map (fun i => (i, n.node_id)))

/-- Keep only the spawn actions of a trace. -/
def spawnsOf (tr : List RunAction) : List RunAction :=
  tr.filter (fun a => match a with | .spawn _ _ => true | _ => false)

/-! ## Environment-config installers (`models/env_config.py`) -/

/-- Outcome of one `subprocess.run` call: return code and captured
output. -/
structure SubprocResult where
  returncode : Int
  stdout : String
  stderr : String
deriving DecidableEq

/-- Fields of `UVVirtualEnvConfig` that `install_env` reads;
`operator_code_path` is injected by the executor. -/
structure UVVirtualEnvConfig where
  env_root_path : Option String
  env_name : String
  uv_extra_args : List String
  operator_code_path : Option String
deriving DecidableEq

/-- Oracle for `UVVirtualEnvConfig.install_env`: results of the
`uv venv` call and of the editable `pip install` call. -/
structure UVSubprocOracle where
  createResult : SubprocResult
  installResult : SubprocResult
deriving DecidableEq

/-- Result of an `install_env` call: the subprocess commands it
actually invoked and the `EnvInstallError` message, if one was
raised. -/
structure InstallOutcome where
  subprocs : List String
  error : Option String
deriving DecidableEq

/-- Message of the `EnvInstallError` of a failed `uv venv`
(`env_config.py` lines 81-85). -/
def uvCreateFailMsg (env_name stdout stderr : String) : String :=
  "UV虚拟环境创建失败（" ++ env_name ++ "）：\n" ++
    "stdout: " ++ stdout ++ "\n" ++ "stderr: " ++ stderr

/-- Message of the `EnvInstallError` of a failed editable install
(`env_config.py` lines 102-106). -/
def uvInstallFailMsg (env_name stdout stderr : String) : String :=
  "UV依赖安装失败（" ++ env_name ++ "）：\n" ++
    "stdout: " ++ stdout ++ "\n" ++ "stderr: " ++ stderr

namespace UVVirtualEnvConfig

/-- Model of `UVVirtualEnvConfig.install_env` (lines 69-107): run `uv venv`,
raise `EnvInstallError` with the captured output on a nonzero code;
then, when a code path was injected, run the editable install and
raise likewise on a nonzero code. -/
def install_env (cfg : UVVirtualEnvConfig) (root : String)
    (o : UVSubprocOracle) : InstallOutcome :=
  let fullPath := root ++ "/" ++ cfg.env_name
  let createCmd := "uv venv " ++ fullPath
  if o.createResult.returncode ≠ 0 then
    { subprocs := [createCmd],
      error := some (uvCreateFailMsg cfg.env_name
        o.createResult.stdout o.createResult.stderr) }
  else
    match cfg.operator_code_path with
    | none => { subprocs := [createCmd], error := none }
    | some _ =>
      let installCmd := fullPath ++ "/bin/python -m pip install -e ."
      if o.installResult.returncode ≠ 0 then
        { subprocs := [createCmd, installCmd],
          error := some (uvInstallFailMsg cfg.env_name
            o.installResult.stdout o.installResult.stderr) }
      else { subprocs := [createCmd, installCmd], error := none }

end UVVirtualEnvConfig

/-- Fields of `CondaVirtualEnvConfig` that `install_env` reads; `has_s3_client`
models whether an S3 client object was injected. -/
structure CondaVirtualEnvConfig where
  env_root_path : Option String
  env_name : String
  s3_compress_path : String
  need_conda_update : Bool
  has_s3_client : Bool
deriving DecidableEq

/-- Oracle for `CondaVirtualEnvConfig.install_env`: whether the S3
download raises, the `zstd` result, whether `bin/conda` exists in the
unpacked env, and the `conda env update` result. -/
structure CondaOracle where
  downloadOk : Bool
  zstdResult : SubprocResult
  condaBinExists : Bool
  updateResult : SubprocResult
deriving DecidableEq

/-- Observable steps of `CondaVirtualEnvConfig.install_env`. -/
inductive CondaEvent where
  | warnNoS3
  | s3Download (src : String)
  | zstdDecompress
  | unlinkTemp
  | condaUpdate
  | warnUpdateFailed
deriving DecidableEq

namespace CondaVirtualEnvConfig

/-- Model of `CondaVirtualEnvConfig.install_env` (lines 188-240): without an S3
client, log a warning and return; otherwise download (failure raises
`EnvInstallError`), decompress with `zstd` (nonzero raises with the
captured output), delete the archive, and optionally run
`conda env update`, whose failure is only a warning. -/
def install_env (cfg : CondaVirtualEnvConfig) (o : CondaOracle) :
    List CondaEvent × Option String :=
  if cfg.has_s3_client = false then
    ([CondaEvent.warnNoS3], none)
  else if o.downloadOk = false then
    ([CondaEvent.s3Download cfg.s3_compress_path],
      some "S3下载conda压缩包失败")
  else if o.zstdResult.returncode ≠ 0 then
    ([CondaEvent.s3Download cfg.s3_compress_path, CondaEvent.zstdDecompress],
      some ("Conda环境解压失败（" ++ cfg.env_name ++ "）：\n" ++
        "stdout: " ++ o.zstdResult.stdout ++ "\n" ++
        "stderr: " ++ o.zstdResult.stderr))
  else
    let base := [CondaEvent.s3Download cfg.s3_compress_path,
      CondaEvent.zstdDecompress, CondaEvent.unlinkTemp]
    if cfg.need_conda_update ∧ o.condaBinExists then
      if o.updateResult.returncode ≠ 0 then
        (base ++ [CondaEvent.condaUpdate, CondaEvent.warnUpdateFailed], none)
      else (base ++ [CondaEvent.condaUpdate], none)
    else (base, none)

end CondaVirtualEnvConfig

/-! ## `BasicRunner` (`core/basic_runner.py`) -/

/-- Observable steps of `BasicRunner._init_paths`. -/
inductive InitEvent where
  | warnMissingInput (p : String)
  | warnMissingWorkspace (p : String)
  | makedirsOutput (p : String)
deriving DecidableEq

namespace BasicRunner

/-- Model of `BasicRunner._init_paths` (lines 122-138): warn when the input root
is missing, warn when the workspace root is missing, and create only
the output root (`os.makedirs(self.output_root, exist_ok=True)`).
Returns the filesystem after the call together with the event trace;
the function never raises. -/
def init_paths (existsPath : String → Bool)
    (input_root output_root workspace_root : String) :
    (String → Bool) × List InitEvent :=
  let events :=
    (if existsPath input_root then []
     else [InitEvent.warnMissingInput input_root]) ++
    (if existsPath workspace_root then []
     else [InitEvent.warnMissingWorkspace workspace_root]) ++
    [InitEvent.makedirsOutput output_root]
  (fun p => existsPath p || (p == output_root), events)

end BasicRunner

/-- The attributes `BasicRunner.__init__` stores on the instance
(lines 96-120). -/
structure RunnerInstance where
  pipeline_id : String
  node_id : String
  operator_id : String
  input_root : String
  output_root : String
  workspace_root : String
deriving DecidableEq

/-- The arguments of one constructor call. -/
structure CallArgs where
  pipeline_id : String
  node_id : String
  operator_id : String
  input_root : String
  output_root : String
  workspace_root : String
deriving DecidableEq

/-- What `super().__call__` builds: an instance holding exactly this
call's arguments. -/
def mkInstance (a : CallArgs) : RunnerInstance :=
  ⟨a.pipeline_id, a.node_id, a.operator_id,
    a.input_root, a.output_root, a.workspace_root⟩

/-- The singleton key (line 76-77): `kwargs.get("operator_id") or
args[2]` — a falsy (empty) operator id degrades to `None` — paired
with the class. -/
def singletonKey (clsName : String) (a : CallArgs) :
    String × Option String :=
  (clsName, if a.operator_id == "" then none else some a.operator_id)

/-- Model of the `SingletonMeta._instances` map. -/
abbrev InstanceMap := List ((String × Option String) × RunnerInstance)

/-- Lookup in the instance map. -/
def instLookup (m : InstanceMap) (k : String × Option String) :
    Option RunnerInstance :=
  (m.find? (fun p => p.1 = k)).map (fun p => p.2)

namespace SingletonMeta

/-- Model of `SingletonMeta.__call__` (lines 73-86): build and cache a new
instance when the key is unseen, otherwise return the cached instance
untouched — the new call's arguments are discarded. -/
def call (m : InstanceMap) (clsName : String) (a : CallArgs) :
    InstanceMap × RunnerInstance :=
  let key := singletonKey clsName a
  match instLookup m key with
  | some inst => (m, inst)
  | none =>
    let inst := mkInstance a
    (m ++ [(key, inst)], inst)

end SingletonMeta

/-! ## Concrete configurations used to evaluate the model -/

/-- Two operators, one node, second operator fails with code 7. -/
def cfgW1 : PipelineModel :=
  ⟨"p", "wd",
    [⟨"a", [], "UVVirtualEnvConfig", "a"⟩,
     ⟨"b", [], "UVVirtualEnvConfig", "b"⟩],
    [⟨"n1", ["a", "b"]⟩]⟩

/-- Oracle for `cfgW1`: everything provisioned, operator `b` exits 7. -/
def oW1 : RunOracle :=
  ⟨fun _ => true, fun _ => true, fun _ => true, fun _ => none,
    fun i _ => if i == "b" then 7 else 0⟩

/-- One operator whose environment must be installed. -/
def cfgW2 : PipelineModel :=
  ⟨"p", "wd", [⟨"a", [], "UVVirtualEnvConfig", "enva"⟩], [⟨"n1", ["a"]⟩]⟩

/-- Oracle for `cfgW2`: the env does not exist and its install raises
`EnvInstallError`. -/
def oW2 : RunOracle :=
  ⟨fun _ => true, fun _ => true, fun _ => false,
    fun _ => some (uvCreateFailMsg "enva" "boom-out" "boom-err"),
    fun _ _ => 0⟩

/-- UV config whose venv creation subprocess will fail. -/
def uvCfgW2 : UVVirtualEnvConfig := ⟨none, "enva", [], none⟩

/-- UV oracle: `uv venv` exits 1 with captured output. -/
def uvOracleW2 : UVSubprocOracle := ⟨⟨1, "boom-out", "boom-err"⟩, ⟨0, "", ""⟩⟩

/-- UV config with an injected code path, so the editable install runs. -/
def uvCfgW2b : UVVirtualEnvConfig := ⟨none, "envb", [], some "/code/a"⟩

/-- UV oracle: creation succeeds, editable install exits 2. -/
def uvOracleW2b : UVSubprocOracle := ⟨⟨0, "", ""⟩, ⟨2, "pip-out", "pip-err"⟩⟩

/-- Operator for the timeout scenario: timeout 10 seconds. -/
def opW3 : OperatorModel := ⟨"op1", some "/code/op1", "python run.py", 10, [], []⟩

/-- Spawn oracle: process alive at 3s, still alive at 20s (past the
deadline), and still alive after the grace sleep. -/
def oW3 : SpawnOracle := ⟨true, [(none, 3), (none, 20)], true⟩

/-- Pipeline whose only operator declares a dependency on an id that is
not in the operator set. -/
def cfgW5 : PipelineModel :=
  ⟨"p", "wd", [⟨"a", ["ghost"], "UVVirtualEnvConfig", "a"⟩], [⟨"n1", ["a"]⟩]⟩

/-- Oracle for `cfgW5`: everything would succeed if reached. -/
def oW5 : RunOracle :=
  ⟨fun _ => true, fun _ => true, fun _ => true, fun _ => none, fun _ _ => 0⟩

/-- Oracle for the provisioning-idempotence scenario: the env path does
not exist yet and install succeeds. -/
def oW6 : RunOracle :=
  ⟨fun _ => true, fun _ => true, fun _ => false, fun _ => none, fun _ _ => 0⟩

/-- Operator whose `code_path` was never resolved. -/
def opW7 : OperatorModel := ⟨"a", none, "python main.py", 100, [], []⟩

/-- Spawn oracle where `Popen` raises (the `cwd` string "None" does not
exist). -/
def oW7 : SpawnOracle := ⟨false, [], false⟩

/-- Filesystem for the `_init_paths` scenario: only the input root
exists. -/
def fsW8 : String → Bool := fun p => p == "in"

/-- Conda config with no injected S3 client. -/
def cfgW9 : CondaVirtualEnvConfig := ⟨none, "enva", "s3://b/k.zst", true, false⟩

/-- Conda oracle (irrelevant when the client is missing). -/
def oW9 : CondaOracle := ⟨true, ⟨0, "", ""⟩, true, ⟨0, "", ""⟩⟩

/-- First construction call of a runner. -/
def a1W : CallArgs := ⟨"p1", "n1", "op", "in1", "out1", "ws1"⟩

/-- Second construction call: same `operator_id`, every other argument
different. -/
def a2W : CallArgs := ⟨"p2", "n2", "op", "in2", "out2", "ws2"⟩

/-! ## Dictionary lemmas -/

theorem find?_pair_cons_pos (x : String × String) (t : List (String × String))
    (pred : String × String → Bool) (h : pred x = true) :
    (x :: t).find? pred = some x := by
  simp [List.find?_cons, h]

theorem find?_pair_cons_neg (x : String × String) (t : List (String × String))
    (pred : String × String → Bool) (h : pred x = false) :
    (x :: t).find? pred = t.find? pred := by
  simp [List.find?_cons, h]

theorem find?_map_overwrite_self (m : List (String × String)) (k v : String)
    (h : m.any (fun p => p.1 == k) = true) :
    (m.map (fun p => if p.1 == k then (k, v) else p)).find?
      (fun p => p.1 == k) = some (k, v) := by
  induction m with
  | nil => simp at h
  | cons p t ih =>
    rw [List.map_cons]
    by_cases hp : (p.1 == k) = true
    · rw [if_pos hp]
      exact find?_pair_cons_pos (k, v) _ _ (by simp)
    · have hpf : (p.1 == k) = false := Bool.not_eq_true _ ▸ hp
      rw [if_neg hp, find?_pair_cons_neg p _ _ hpf]
      apply ih
      rcases List.any_eq_true.mp h with ⟨x, hx, hxk⟩
      rcases List.mem_cons.mp hx with hx | hx
      · exact absurd (hx ▸ hxk) hp
      · exact List.any_eq_true.mpr ⟨x, hx, hxk⟩

theorem find?_map_overwrite_other (m : List (String × String))
    (k v k2 : String) (hne : k2 ≠ k) :
    (m.map (fun p => if p.1 == k then (k, v) else p)).find?
      (fun p => p.1 == k2) = m.find? (fun p => p.1 == k2) := by
  induction m with
  | nil => simp
  | cons p t ih =>
    rw [List.map_cons]
    have hkk2 : (k == k2) = false := beq_eq_false_iff_ne.mpr (Ne.symm hne)
    by_cases hp : (p.1 == k) = true
    · have hpk : p.1 = k := beq_iff_eq.mp hp
      have h2 : (p.1 == k2) = false := by rw [hpk]; exact hkk2
      rw [if_pos hp, find?_pair_cons_neg (k, v) _ _ hkk2,
        find?_pair_cons_neg p _ _ h2, ih]
    · rw [if_neg hp]
      by_cases hq : (p.1 == k2) = true
      · rw [find?_pair_cons_pos p _ _ hq, find?_pair_cons_pos p _ _ hq]
      · have hqf : (p.1 == k2) = false := Bool.not_eq_true _ ▸ hq
        rw [find?_pair_cons_neg p _ _ hqf, find?_pair_cons_neg p _ _ hqf, ih]

theorem find?_eq_none_of_any_false (m : List (String × String)) (k : String)
    (h : m.any (fun p => p.1 == k) = false) :
    m.find? (fun p => p.1 == k) = none := by
  rw [List.find?_eq_none]
  intro x hx
  have hfa := List.any_eq_false.mp h x hx
  simpa using hfa

theorem lookupD_dictInsert (m : List (String × String)) (k v k2 : String) :
    lookupD (dictInsert m k v) k2 = if k2 = k then some v else lookupD m k2 := by
  unfold dictInsert lookupD
  by_cases hany : (m.any (fun p => p.1 == k)) = true
  · rw [if_pos hany]
    by_cases h : k2 = k
    · subst h
      rw [find?_map_overwrite_self m k2 v hany, if_pos rfl]
      rfl
    · rw [find?_map_overwrite_other m k v k2 h, if_neg h]
  · rw [if_neg hany]
    have hnone := find?_eq_none_of_any_false m k
      (Bool.not_eq_true _ ▸ hany)
    by_cases h : k2 = k
    · subst h
      rw [List.find?_append, hnone, if_pos rfl,
        find?_pair_cons_pos (k2, v) _ _ (by simp)]
      rfl
    · have hkk2 : ((k : String) == k2) = false :=
        beq_eq_false_iff_ne.mpr (Ne.symm h)
      have hsk : (([(k, v)]).find? (fun p => p.1 == k2)) = none := by
        rw [find?_pair_cons_neg (k, v) _ _ hkk2]
        rfl
      rw [List.find?_append, hsk, if_neg h]
      cases m.find? (fun p => p.1 == k2) <;> rfl

theorem foldl_lastVal_step (k : String) (t : List (String × String)) :
    ∀ i : Option String,
      t.foldl (fun acc p => if p.1 == k then some p.2 else acc) i =
        (lastVal t k).elim i some := by
  induction t with
  | nil => intro i; simp [lastVal]
  | cons p t ih =>
    intro i
    have hl : lastVal (p :: t) k =
        (lastVal t k).elim (if p.1 == k then some p.2 else none) some := by
      unfold lastVal
      rw [List.foldl_cons]
      exact ih _
    rw [List.foldl_cons, ih, hl]
    cases h : lastVal t k with
    | none => by_cases hp : (p.1 == k) = true <;> simp [hp]
    | some v => simp

theorem lookupD_dictUpdate (m upd : List (String × String)) (k : String) :
    lookupD (dictUpdate m upd) k = (lastVal upd k).elim (lookupD m k) some := by
  induction upd generalizing m with
  | nil => simp [dictUpdate, lastVal]
  | cons p t ih =>
    have h1 : dictUpdate m (p :: t) = dictUpdate (dictInsert m p.1 p.2) t := rfl
    have h2 : lastVal (p :: t) k =
        (lastVal t k).elim (if p.1 == k then some p.2 else none) some := by
      unfold lastVal
      rw [List.foldl_cons]
      exact foldl_lastVal_step k t _
    rw [h1, ih, lookupD_dictInsert, h2]
    by_cases hp : (p.1 == k) = true
    · have hk : k = p.1 := (beq_iff_eq.mp hp).symm
      cases h : lastVal t k <;> simp [hp, hk]
    · have hk : ¬ (k = p.1) := fun he => hp (beq_iff_eq.mpr he.symm)
      cases h : lastVal t k <;> simp [hp, hk]

/-! ## Environment-merge lemmas -/

theorem lastVal_idvars_pipeline (pid nid oid wd : String) :
    lastVal [("PIPELINE_ID", pid), ("NODE_ID", nid),
      ("OPERATOR_ID", oid), ("WORK_DIR", wd)] "PIPELINE_ID" = some pid := rfl

theorem lastVal_idvars_node (pid nid oid wd : String) :
    lastVal [("PIPELINE_ID", pid), ("NODE_ID", nid),
      ("OPERATOR_ID", oid), ("WORK_DIR", wd)] "NODE_ID" = some nid := rfl

theorem lastVal_idvars_operator (pid nid oid wd : String) :
    lastVal [("PIPELINE_ID", pid), ("NODE_ID", nid),
      ("OPERATOR_ID", oid), ("WORK_DIR", wd)] "OPERATOR_ID" = some oid := rfl

theorem lastVal_idvars_workdir (pid nid oid wd : String) :
    lastVal [("PIPELINE_ID", pid), ("NODE_ID", nid),
      ("OPERATOR_ID", oid), ("WORK_DIR", wd)] "WORK_DIR" = some wd := rfl

theorem lastVal_idvars_none (pid nid oid wd k : String)
    (h1 : k ≠ "PIPELINE_ID") (h2 : k ≠ "NODE_ID")
    (h3 : k ≠ "OPERATOR_ID") (h4 : k ≠ "WORK_DIR") :
    lastVal [("PIPELINE_ID", pid), ("NODE_ID", nid),
      ("OPERATOR_ID", oid), ("WORK_DIR", wd)] k = none := by
  simp [lastVal, Ne.symm h1, Ne.symm h2, Ne.symm h3, Ne.symm h4]

/-! ## Wait-loop lemmas -/

theorem waitLoop_timeout_fires (timeout e : Nat) (rest : List LoopObs) :
    ∀ pre : List LoopObs, (∀ x ∈ pre, x.1 = none) → timeout < e →
      waitLoop timeout (pre ++ (none, e) :: rest) = .timedOut := by
  intro pre
  induction pre with
  | nil =>
    intro _ he
    simp [waitLoop, he]
  | cons x pre ih =>
    intro hpre he
    obtain ⟨p, t⟩ := x
    have hx : p = none := hpre (p, t) (List.mem_cons_self _ _)
    subst hx
    by_cases ht : t > timeout
    · simp [waitLoop, ht]
    · simp only [List.cons_append, waitLoop, if_neg ht]
      exact ih (fun y hy => hpre y (List.mem_cons_of_mem _ hy)) he

theorem waitLoop_timedOut_requires (timeout : Nat) :
    ∀ obs : List LoopObs, waitLoop timeout obs = .timedOut →
      ∃ x ∈ obs, x.1 = none ∧ timeout < x.2 := by
  intro obs
  induction obs with
  | nil => intro h; simp [waitLoop] at h
  | cons x rest ih =>
    obtain ⟨p, t⟩ := x
    intro h
    cases p with
    | some c => simp [waitLoop] at h
    | none =>
      by_cases ht : t > timeout
      · exact ⟨(none, t), List.mem_cons_self _ _, rfl, ht⟩
      · rw [show waitLoop timeout ((none, t) :: rest) = waitLoop timeout rest
          from by simp [waitLoop, ht]] at h
        obtain ⟨y, hy, hy1, hy2⟩ := ih h
        exact ⟨y, List.mem_cons_of_mem _ hy, hy1, hy2⟩

/-! ## Execution-phase lemmas -/

theorem firstNonzero_append (a b : List Int) :
    firstNonzero (a ++ b) =
      (firstNonzeroO a).elim (firstNonzero b) (fun c => c) := by
  induction a with
  | nil => rfl
  | cons c rest ih =>
    by_cases hc : c ≠ 0 <;> simp [firstNonzero, firstNonzeroO, hc, ih]

theorem failFastSpawns_append (exec : String → String → Int)
    (a b : List (String × String)) :
    failFastSpawns exec (a ++ b) =
      if (firstNonzeroO (a.map (fun pr => exec pr.1 pr.2))).isSome
      then failFastSpawns exec a
      else failFastSpawns exec a ++ failFastSpawns exec b := by
  induction a with
  | nil => simp [failFastSpawns, firstNonzeroO]
  | cons pr rest ih =>
    obtain ⟨i, nd⟩ := pr
    by_cases hc : exec i nd ≠ 0
    · simp [failFastSpawns, firstNonzeroO, hc]
    · rw [List.cons_append,
        show failFastSpawns exec ((i, nd) :: (rest ++ b)) =
          RunAction.spawn i nd ::
            (if exec i nd ≠ 0 then []
             else failFastSpawns exec (rest ++ b)) from rfl,
        if_neg hc, ih]
      simp only [List.map_cons, firstNonzeroO, if_neg hc]
      by_cases hs : (firstNonzeroO
          (rest.map (fun pr => exec pr.1 pr.2))).isSome = true
      · rw [if_pos hs, if_pos hs]
        simp [failFastSpawns, hc]
      · rw [if_neg hs, if_neg hs]
        simp [failFastSpawns, hc]

theorem execNodeOps_spec (ops : List OperatorConfigModel) (o : RunOracle)
    (nodeId : String) :
    ∀ ids : List String,
      (∀ i ∈ ids, (opMapLookup ops i).isSome) →
      execNodeOps ops o nodeId ids =
        (firstNonzeroO (ids.map (fun i => o.execCode i nodeId)),
         failFastSpawns o.execCode (ids.map (fun i => (i, nodeId)))) := by
  intro ids
  induction ids with
  | nil => intro _; rfl
  | cons i rest ih =>
    intro h
    have hi : (opMapLookup ops i).isSome :=
      h i (List.mem_cons_self _ _)
    obtain ⟨op, hop⟩ := Option.isSome_iff_exists.mp hi
    rw [execNodeOps, hop]
    by_cases hc : o.execCode i nodeId ≠ 0
    · simp [hc, firstNonzeroO, failFastSpawns]
    · have ihr := ih (fun j hj => h j (List.mem_cons_of_mem _ hj))
      simp [hc, firstNonzeroO, failFastSpawns, ihr]

theorem execPhase_spec (ops : List OperatorConfigModel) (o : RunOracle) :
    ∀ nodes : List NodeModel,
      (∀ n ∈ nodes, ∀ i ∈ n.operator_ids, (opMapLookup ops i).isSome) →
      execPhase ops o nodes =
        (firstNonzero (nodes.flatMap (fun n =>
           n.operator_ids.map (fun i => o.execCode i n.node_id))),
         failFastSpawns o.execCode (nodes.flatMap (fun n =>
           n.operator_ids.map (fun i => (i, n.node_id))))) := by
  intro nodes
  induction nodes with
  | nil => intro _; rfl
  | cons n rest ih =>
    intro h
    have hn := h n (List.mem_cons_self _ _)
    have hrest := ih (fun m hm => h m (List.mem_cons_of_mem _ hm))
    rw [execPhase, execNodeOps_spec ops o n.node_id n.operator_ids hn]
    have hmm : ((n.operator_ids.map (fun i => (i, n.node_id))).map
        (fun pr => o.execCode pr.1 pr.2)) =
        n.operator_ids.map (fun i => o.execCode i n.node_id) := by
      simp [List.map_map, Function.comp]
    cases hfn : firstNonzeroO (n.operator_ids.map
        (fun i => o.execCode i n.node_id)) with
    | some code =>
      simp only [List.flatMap_cons, firstNonzero_append, hfn,
        failFastSpawns_append, hmm, Option.isSome_some, if_pos]
      rfl
    | none =>
      simp only [List.flatMap_cons, firstNonzero_append, hfn,
        failFastSpawns_append, hmm, Option.isSome_none, Bool.false_eq_true,
        if_neg, hrest]
      rfl

/-! ## Trace lemmas -/

theorem spawnsOf_append (a b : List RunAction) :
    spawnsOf (a ++ b) = spawnsOf a ++ spawnsOf b := by
  simp [spawnsOf]

theorem spawnsOf_clonePhase (workDir : String) (o : RunOracle) :
    ∀ ops, spawnsOf (clonePhase workDir o ops).1 = [] := by
  intro ops
  induction ops with
  | nil => rfl
  | cons op rest ih =>
    rw [clonePhase]
    by_cases h1 : o.codeExists (clonedPath workDir op.operator_id) = true
    · rw [if_pos h1]
      exact ih
    · rw [if_neg h1]
      by_cases h2 : o.cloneOk op.operator_id = true
      · rw [if_pos h2]
        rcases hr : clonePhase workDir o rest with ⟨tr, ok⟩
        rw [hr] at ih
        simpa [spawnsOf, List.filter_cons] using ih
      · rw [if_neg h2]
        rfl

theorem spawnsOf_setup_virtual_env (o : RunOracle) (workDir : String)
    (cache : List (String × String)) (t n : String) :
    spawnsOf (setup_virtual_env o workDir cache t n).2.1 = [] := by
  unfold setup_virtual_env
  dsimp only
  split_ifs with h1 h2
  · rfl
  · rfl
  · cases o.installError (envKey t n) <;> rfl

theorem spawnsOf_setupPhase (o : RunOracle) (workDir : String) :
    ∀ (ops : List OperatorConfigModel) (cache : List (String × String)),
      spawnsOf (setupPhase o workDir cache ops).1 = [] := by
  intro ops
  induction ops with
  | nil => intro cache; rfl
  | cons op rest ih =>
    intro cache
    rw [setupPhase]
    rcases hs : setup_virtual_env o workDir cache op.env_type op.env_name
      with ⟨c1, a1, e1⟩
    have ha1 : spawnsOf a1 = [] := by
      have h := spawnsOf_setup_virtual_env o workDir cache op.env_type op.env_name
      rw [hs] at h
      exact h
    cases e1 with
    | some msg => simpa using ha1
    | none =>
      rcases hr : setupPhase o workDir c1 rest with ⟨tr, c2, e2⟩
      have htr : spawnsOf tr = [] := by
        have h := ih c1
        rw [hr] at h
        exact h
      simp [hr, spawnsOf_append, ha1, htr]

theorem spawnsOf_failFastSpawns (exec : String → String → Int) :
    ∀ pairs, spawnsOf (failFastSpawns exec pairs) = failFastSpawns exec pairs := by
  intro pairs
  induction pairs with
  | nil => rfl
  | cons pr rest ih =>
    obtain ⟨i, nd⟩ := pr
    rw [show failFastSpawns exec ((i, nd) :: rest) =
        RunAction.spawn i nd ::
          (if exec i nd ≠ 0 then [] else failFastSpawns exec rest) from rfl]
    by_cases hc : exec i nd ≠ 0
    · rw [if_pos hc]
      rfl
    · rw [if_neg hc,
        show spawnsOf (RunAction.spawn i nd :: failFastSpawns exec rest) =
          RunAction.spawn i nd :: spawnsOf (failFastSpawns exec rest) from by
            simp [spawnsOf, List.filter_cons],
        ih]

/-! ## Run-level lemmas -/

theorem run_unfolds (cfg : PipelineModel) (o : RunOracle)
    (hval : validate_dependencies cfg.operators = none)
    (ctr : List RunAction)
    (hc : clonePhase cfg.work_dir o cfg.operators = (ctr, true))
    (str_ : List RunAction) (cache : List (String × String))
    (hs : setupPhase o cfg.work_dir [] cfg.operators = (str_, cache, none)) :
    PipelineExecutor.run cfg o =
      ((execPhase cfg.operators o cfg.nodes).1,
       ctr ++ str_ ++ (execPhase cfg.operators o cfg.nodes).2) := by
  unfold PipelineExecutor.run
  rw [hval, hc, hs]
  rfl

/-! ## Claim theorems -/

/-- C1: for every pipeline run in which validation, cloning and
provisioning succeed (and, per the data-model invariant, every node's
operator-id list references existing operators), `PipelineExecutor.run`
returns the exit code of the first operator — in declared node-list
order, then node-local operator order — whose execution returns a
nonzero code (0 when every operator returns 0), and the spawn trace
stops at that operator: no operator after it is ever executed. -/
theorem run_fail_fast_exit_code (cfg : PipelineModel) (o : RunOracle)
    (hval : validate_dependencies cfg.operators = none)
    (hclone : (clonePhase cfg.work_dir o cfg.operators).2 = true)
    (hsetup : (setupPhase o cfg.work_dir [] cfg.operators).2.2 = none)
    (hres : ∀ n ∈ cfg.nodes, ∀ i ∈ n.operator_ids,
      (opMapLookup cfg.operators i).isSome) :
    (PipelineExecutor.run cfg o).1 = firstNonzero (scopedCodes cfg o) ∧
    spawnsOf (PipelineExecutor.run cfg o).2 =
      failFastSpawns o.execCode (scopedPairs cfg) := by
  rcases hc : clonePhase cfg.work_dir o cfg.operators with ⟨ctr, cok⟩
  rcases hs : setupPhase o cfg.work_dir [] cfg.operators with ⟨str_, cache, err⟩
  rw [hc] at hclone
  rw [hs] at hsetup
  dsimp only at hclone hsetup
  subst hclone
  subst hsetup
  have hexec := execPhase_spec cfg.operators o cfg.nodes hres
  have hrun := run_unfolds cfg o hval ctr hc str_ cache hs
  rw [hrun, hexec]
  refine ⟨rfl, ?_⟩
  have h1 : spawnsOf ctr = [] := by
    have h := spawnsOf_clonePhase cfg.work_dir o cfg.operators
    rw [hc] at h
    exact h
  have h2 : spawnsOf str_ = [] := by
    have h := spawnsOf_setupPhase o cfg.work_dir cfg.operators []
    rw [hs] at h
    exact h
  simp [spawnsOf_append, h1, h2, spawnsOf_failFastSpawns,
    scopedCodes, scopedPairs]

/-- Witness for C1: a concrete two-operator pipeline whose second
operator exits 7. -/
theorem run_fail_fast_exit_code_witness :
    (PipelineExecutor.run cfgW1 oW1).1 = firstNonzero (scopedCodes cfgW1 oW1) ∧
    spawnsOf (PipelineExecutor.run cfgW1 oW1).2 =
      failFastSpawns oW1.execCode (scopedPairs cfgW1) :=
  run_fail_fast_exit_code cfgW1 oW1 (by rfl) (by rfl) (by rfl) (by decide)

/-- C2 (amended): a nonzero install subprocess raises `EnvInstallError`
whose message carries the captured stdout and stderr, provisioning for
that operator aborts, and at the orchestration boundary the blanket
exception handler of `run` maps it to exit code 3 (not 5). -/
theorem env_install_error_exit3 :
    (∀ (cfg : UVVirtualEnvConfig) (root : String) (o : UVSubprocOracle),
      o.createResult.returncode ≠ 0 →
      (UVVirtualEnvConfig.install_env cfg root o).error =
        some (uvCreateFailMsg cfg.env_name o.createResult.stdout
          o.createResult.stderr)) ∧
    (∀ (cfg : UVVirtualEnvConfig) (root : String) (o : UVSubprocOracle)
      (p : String),
      o.createResult.returncode = 0 → cfg.operator_code_path = some p →
      o.installResult.returncode ≠ 0 →
      (UVVirtualEnvConfig.install_env cfg root o).error =
        some (uvInstallFailMsg cfg.env_name o.installResult.stdout
          o.installResult.stderr)) ∧
    (∀ (cfg : PipelineModel) (o : RunOracle),
      validate_dependencies cfg.operators = none →
      (clonePhase cfg.work_dir o cfg.operators).2 = true →
      (setupPhase o cfg.work_dir [] cfg.operators).2.2.isSome →
      (PipelineExecutor.run cfg o).1 = 3) := by
  refine ⟨?_, ?_, ?_⟩
  · intro cfg root o h
    simp [UVVirtualEnvConfig.install_env, h]
  · intro cfg root o p h0 hp h1
    simp [UVVirtualEnvConfig.install_env, h0, hp, h1]
  · intro cfg o hval hclone hsetup
    rcases hc : clonePhase cfg.work_dir o cfg.operators with ⟨ctr, cok⟩
    rcases hs : setupPhase o cfg.work_dir [] cfg.operators
      with ⟨str_, cache, err⟩
    rw [hc] at hclone
    rw [hs] at hsetup
    dsimp only at hclone hsetup
    subst hclone
    obtain ⟨msg, hmsg⟩ := Option.isSome_iff_exists.mp hsetup
    subst hmsg
    unfold PipelineExecutor.run
    rw [hval, hc, hs]
    rfl

/-- Witness for C2: concrete failing `uv venv`, concrete failing
editable install, and a concrete pipeline whose install error yields
exit code 3. -/
theorem env_install_error_exit3_witness :
    (UVVirtualEnvConfig.install_env uvCfgW2 "wd/envs" uvOracleW2).error =
      some (uvCreateFailMsg uvCfgW2.env_name uvOracleW2.createResult.stdout
        uvOracleW2.createResult.stderr) ∧
    (UVVirtualEnvConfig.install_env uvCfgW2b "wd/envs" uvOracleW2b).error =
      some (uvInstallFailMsg uvCfgW2b.env_name uvOracleW2b.installResult.stdout
        uvOracleW2b.installResult.stderr) ∧
    (PipelineExecutor.run cfgW2 oW2).1 = 3 :=
  ⟨env_install_error_exit3.1 uvCfgW2 "wd/envs" uvOracleW2 (by decide),
   env_install_error_exit3.2.1 uvCfgW2b "wd/envs" uvOracleW2b "/code/a"
     (by decide) rfl (by decide),
   env_install_error_exit3.2.2 cfgW2 oW2 (by rfl) (by rfl) (by rfl)⟩

/-- C2 counterexample: the install subprocess exits nonzero
(`EnvInstallError` raised during provisioning), yet the pipeline's
overall exit code is 3, not 5 as the claim states. -/
theorem env_install_error_exit_not5 :
    (setupPhase oW2 cfgW2.work_dir [] cfgW2.operators).2.2.isSome = true ∧
    (PipelineExecutor.run cfgW2 oW2).1 = 3 ∧
    (PipelineExecutor.run cfgW2 oW2).1 ≠ 5 := by
  refine ⟨by rfl, by rfl, by decide⟩

/-- C3: an execution whose elapsed wall time exceeds the operator's
timeout while the process is still alive makes `execute_operator`
return exit code 4 — never the process's own code — after SIGTERM, a
5-second grace sleep, and a kill exactly when the process survives the
grace period; and the timeout branch (the only source of code 4 in the
wait loop) fires only at an observation whose elapsed time is past the
deadline, never before it. -/
theorem execute_operator_timeout_code4 :
    (∀ (base : List (String × String)) (pid wd : String)
      (op : OperatorModel) (nid : String) (o : SpawnOracle)
      (pre rest : List LoopObs) (e : Nat),
      o.spawnOk = true →
      o.obs = pre ++ (none, e) :: rest →
      (∀ x ∈ pre, x.1 = none) →
      op.timeout < e →
      execute_operator base pid wd op nid o =
        (some 4,
         [ExecEvent.popen op.start_command (cwdStr op.code_path)
            (prepare_env_vars base op.activation op.extra_env_vars
              pid nid op.operator_id wd),
          ExecEvent.sigterm, ExecEvent.graceSleep 5] ++
          (if o.aliveAfterGrace then [ExecEvent.kill] else []))) ∧
    (∀ (timeout : Nat) (obs : List LoopObs),
      waitLoop timeout obs = LoopResult.timedOut →
      ∃ x ∈ obs, x.1 = none ∧ timeout < x.2) := by
  constructor
  · intro base pid wd op nid o pre rest e hspawn hobs hpre he
    unfold execute_operator
    rw [hspawn, hobs, waitLoop_timeout_fires op.timeout e rest pre hpre he]
    rfl
  · exact waitLoop_timedOut_requires

/-- Witness for C3: a 10-second operator observed alive at 3s and at
20s, still alive after the grace sleep. -/
theorem execute_operator_timeout_code4_witness :
    execute_operator [] "p" "wd" opW3 "n1" oW3 =
      (some 4,
       [ExecEvent.popen opW3.start_command (cwdStr opW3.code_path)
          (prepare_env_vars [] opW3.activation opW3.extra_env_vars
            "p" "n1" opW3.operator_id "wd"),
        ExecEvent.sigterm, ExecEvent.graceSleep 5] ++
        (if oW3.aliveAfterGrace then [ExecEvent.kill] else [])) ∧
    ∃ x ∈ [((none : Option Int), 20)], x.1 = none ∧ 10 < x.2 :=
  ⟨execute_operator_timeout_code4.1 [] "p" "wd" opW3 "n1" oW3
     [(none, 3)] [] 20 rfl rfl (by decide) (by decide),
   execute_operator_timeout_code4.2 10 [(none, 20)] (by rfl)⟩

/-- C4 counterexample: at a concrete invocation the merged child
environment has no `INPUT_ROOT`, `OUTPUT_ROOT` or `WORKSPACE_ROOT`
binding — the executor injects `WORK_DIR` instead of the three path
roots the claim lists among the identity variables. -/
theorem prepare_env_vars_no_input_root :
    lookupD (prepare_env_vars [] [] [] "p" "n" "o" "wd") "INPUT_ROOT" = none ∧
    lookupD (prepare_env_vars [] [] [] "p" "n" "o" "wd") "OUTPUT_ROOT" = none ∧
    lookupD (prepare_env_vars [] [] [] "p" "n" "o" "wd") "WORKSPACE_ROOT" = none ∧
    lookupD (prepare_env_vars [] [] [] "p" "n" "o" "wd") "WORK_DIR" = some "wd" := by
  refine ⟨rfl, rfl, rfl, rfl⟩

/-- C4 (amended): the child environment is the base environment
overlaid by activation variables, then `extra_env_vars`, then the four
identity variables `PIPELINE_ID`, `NODE_ID`, `OPERATOR_ID` and
`WORK_DIR`, which are always present with the currently executing
operator's values and overridden by nothing; for any other key set by
both activation and `extra_env_vars`, the `extra_env_vars` value
wins. -/
theorem prepare_env_vars_precedence (base act extra : List (String × String))
    (pid nid oid wd : String) :
    lookupD (prepare_env_vars base act extra pid nid oid wd)
      "PIPELINE_ID" = some pid ∧
    lookupD (prepare_env_vars base act extra pid nid oid wd)
      "NODE_ID" = some nid ∧
    lookupD (prepare_env_vars base act extra pid nid oid wd)
      "OPERATOR_ID" = some oid ∧
    lookupD (prepare_env_vars base act extra pid nid oid wd)
      "WORK_DIR" = some wd ∧
    (∀ k v, k ≠ "PIPELINE_ID" → k ≠ "NODE_ID" → k ≠ "OPERATOR_ID" →
      k ≠ "WORK_DIR" → lastVal extra k = some v →
      lookupD (prepare_env_vars base act extra pid nid oid wd) k = some v) := by
  unfold prepare_env_vars
  refine ⟨?_, ?_, ?_, ?_, ?_⟩
  · rw [lookupD_dictUpdate, lastVal_idvars_pipeline]
    rfl
  · rw [lookupD_dictUpdate, lastVal_idvars_node]
    rfl
  · rw [lookupD_dictUpdate, lastVal_idvars_operator]
    rfl
  · rw [lookupD_dictUpdate, lastVal_idvars_workdir]
    rfl
  · intro k v h1 h2 h3 h4 hv
    rw [lookupD_dictUpdate, lastVal_idvars_none pid nid oid wd k h1 h2 h3 h4]
    show lookupD (dictUpdate (dictUpdate base act) extra) k = some v
    rw [lookupD_dictUpdate, hv]
    rfl

/-- Witness for C4 at a concrete environment where activation and
`extra_env_vars` both set key `K`. -/
theorem prepare_env_vars_precedence_witness :
    lookupD (prepare_env_vars [("HOME", "/root")]
      [("K", "act"), ("PATH", "envbin")] [("K", "extra")]
      "p" "n" "o" "wd") "PIPELINE_ID" = some "p" ∧
    lookupD (prepare_env_vars [("HOME", "/root")]
      [("K", "act"), ("PATH", "envbin")] [("K", "extra")]
      "p" "n" "o" "wd") "K" = some "extra" :=
  ⟨(prepare_env_vars_precedence [("HOME", "/root")]
      [("K", "act"), ("PATH", "envbin")] [("K", "extra")]
      "p" "n" "o" "wd").1,
   (prepare_env_vars_precedence [("HOME", "/root")]
      [("K", "act"), ("PATH", "envbin")] [("K", "extra")]
      "p" "n" "o" "wd").2.2.2.2 "K" "extra"
      (by decide) (by decide) (by decide) (by decide) rfl⟩

/-- Validation passes exactly when every declared upstream dependency
id resolves in the operator map. -/
theorem validate_dependencies_none_iff (ops : List OperatorConfigModel) :
    validate_dependencies ops = none ↔
      ∀ op ∈ ops, ∀ d ∈ op.upstream_dependencies,
        (opMapLookup ops d).isSome := by
  unfold validate_dependencies
  rw [List.findSome?_eq_none_iff]
  constructor
  · intro h op hop d hd
    have h2 := h op hop
    rw [Option.map_eq_none', List.find?_eq_none] at h2
    have h3 := h2 d hd
    exact Option.isSome_iff_ne_none.mpr (by simpa using h3)
  · intro h op hop
    rw [Option.map_eq_none', List.find?_eq_none]
    intro d hd
    have h4 := h op hop d hd
    simp [Option.isSome_iff_ne_none.mp h4]

/-- C5 (amended): a declared upstream dependency id absent from the
operator set makes validation raise `DependencyMissingError` (naming an
operator/dependency pair), no clone, provisioning or spawn action is
performed — and the blanket exception handler makes `run` return exit
code 3, not 1. -/
theorem run_missing_dependency_exit3 (cfg : PipelineModel) (o : RunOracle)
    (op : OperatorConfigModel) (d : String)
    (hop : op ∈ cfg.operators) (hd : d ∈ op.upstream_dependencies)
    (hmiss : opMapLookup cfg.operators d = none) :
    PipelineExecutor.run cfg o = (3, []) ∧
    ∃ pr, validate_dependencies cfg.operators = some pr := by
  have hne : validate_dependencies cfg.operators ≠ none := by
    intro hnone
    have h := (validate_dependencies_none_iff cfg.operators).mp
      hnone op hop d hd
    rw [hmiss] at h
    simp at h
  obtain ⟨pr, hpr⟩ := Option.ne_none_iff_exists'.mp hne
  refine ⟨?_, ⟨pr, hpr⟩⟩
  unfold PipelineExecutor.run
  rw [hpr]

/-- Witness for C5: a concrete pipeline whose only operator depends on
the nonexistent id "ghost". -/
theorem run_missing_dependency_exit3_witness :
    PipelineExecutor.run cfgW5 oW5 = (3, []) ∧
    ∃ pr, validate_dependencies cfgW5.operators = some pr :=
  run_missing_dependency_exit3 cfgW5 oW5
    ⟨"a", ["ghost"], "UVVirtualEnvConfig", "a"⟩ "ghost"
    (by decide) (by decide) (by rfl)

/-- C5 counterexample: with a missing dependency the run exits with
code 3, not 1 as the claim states (the side-effect trace is indeed
empty). -/
theorem run_missing_dependency_not_exit1 :
    (PipelineExecutor.run cfgW5 oW5).1 = 3 ∧
    (PipelineExecutor.run cfgW5 oW5).1 ≠ 1 ∧
    (PipelineExecutor.run cfgW5 oW5).2 = [] := by
  refine ⟨by rfl, by decide, by rfl⟩

/-- C6: provisioning is idempotent per environment key: after a
successful `setup_virtual_env`, a second call for the same key is a
cache hit performing zero install invocations and leaving the cache
untouched; install is skipped when the resolved path already exists;
and one call performs at most one install. -/
theorem setup_virtual_env_idempotent (o : RunOracle) (wd : String)
    (cache : List (String × String)) (t n : String)
    (h1 : (setup_virtual_env o wd cache t n).2.2 = none) :
    setup_virtual_env o wd (setup_virtual_env o wd cache t n).1 t n =
      ((setup_virtual_env o wd cache t n).1, [], none) ∧
    (o.envExists (envFullPath wd n) = true →
      (setup_virtual_env o wd cache t n).2.1 = []) ∧
    (setup_virtual_env o wd cache t n).2.1.length ≤ 1 := by
  have hins : (lookupD (dictInsert cache (envKey t n) (envFullPath wd n))
      (envKey t n)).isSome := by
    rw [lookupD_dictInsert, if_pos rfl]
    rfl
  by_cases hk : (lookupD cache (envKey t n)).isSome = true
  · have hstep : setup_virtual_env o wd cache t n = (cache, [], none) := by
      unfold setup_virtual_env
      dsimp only
      rw [if_pos hk]
    rw [hstep]
    refine ⟨?_, fun _ => rfl, by simp⟩
    unfold setup_virtual_env
    dsimp only
    rw [if_pos hk]
  · by_cases hex : o.envExists (envFullPath wd n) = true
    · have hstep : setup_virtual_env o wd cache t n =
          (dictInsert cache (envKey t n) (envFullPath wd n), [], none) := by
        unfold setup_virtual_env
        dsimp only
        rw [if_neg hk, if_pos hex]
      rw [hstep]
      refine ⟨?_, fun _ => rfl, by simp⟩
      unfold setup_virtual_env
      dsimp only
      rw [if_pos hins]
    · cases hinst : o.installError (envKey t n) with
      | some msg =>
        exfalso
        have hbad : (setup_virtual_env o wd cache t n).2.2 = some msg := by
          unfold setup_virtual_env
          dsimp only
          rw [if_neg hk, if_neg hex, hinst]
        rw [hbad] at h1
        exact Option.noConfusion h1
      | none =>
        have hstep : setup_virtual_env o wd cache t n =
            (dictInsert cache (envKey t n) (envFullPath wd n),
              [RunAction.installEnv (envKey t n)], none) := by
          unfold setup_virtual_env
          dsimp only
          rw [if_neg hk, if_neg hex, hinst]
        rw [hstep]
        refine ⟨?_, fun hc => absurd hc hex, by simp⟩
        unfold setup_virtual_env
        dsimp only
        rw [if_pos hins]

/-- Witness for C6: fresh cache, env path absent, install succeeds. -/
theorem setup_virtual_env_idempotent_witness :
    setup_virtual_env oW6 "wd"
        (setup_virtual_env oW6 "wd" [] "UVVirtualEnvConfig" "enva").1
        "UVVirtualEnvConfig" "enva" =
      ((setup_virtual_env oW6 "wd" [] "UVVirtualEnvConfig" "enva").1,
        [], none) ∧
    (oW6.envExists (envFullPath "wd" "enva") = true →
      (setup_virtual_env oW6 "wd" [] "UVVirtualEnvConfig" "enva").2.1 = []) ∧
    (setup_virtual_env oW6 "wd" [] "UVVirtualEnvConfig" "enva").2.1.length ≤ 1 :=
  setup_virtual_env_idempotent oW6 "wd" [] "UVVirtualEnvConfig" "enva" (by rfl)

/-- C7 (amended): an operator whose `code_path` was never resolved is
not rejected up front: the spawn is attempted with the working
directory string "None", and when `Popen` raises, the generic exception
handler returns exit code 3 — not the configuration code 1. -/
theorem execute_operator_unresolved_code_path
    (base : List (String × String)) (pid wd : String)
    (op : OperatorModel) (nid : String) (o : SpawnOracle)
    (hcp : op.code_path = none) (hsp : o.spawnOk = false) :
    execute_operator base pid wd op nid o =
      (some 3, [ExecEvent.popen op.start_command "None"
        (prepare_env_vars base op.activation op.extra_env_vars
          pid nid op.operator_id wd)]) := by
  unfold execute_operator
  rw [hsp, hcp]
  rfl

/-- Witness for C7 at a concrete unresolved operator. -/
theorem execute_operator_unresolved_code_path_witness :
    execute_operator [] "p" "wd" opW7 "n1" oW7 =
      (some 3, [ExecEvent.popen opW7.start_command "None"
        (prepare_env_vars [] opW7.activation opW7.extra_env_vars
          "p" "n1" opW7.operator_id "wd")]) :=
  execute_operator_unresolved_code_path [] "p" "wd" opW7 "n1" oW7 rfl rfl

/-- C7 counterexample: with an unresolved `code_path` the operator
execution returns 3, not 1, and a `Popen` spawn attempt is recorded —
the claim's "exit code 1 without attempting to spawn" fails on both
counts. -/
theorem execute_operator_unresolved_not_exit1 :
    (execute_operator [] "p" "wd" opW7 "n1" oW7).1 = some 3 ∧
    (execute_operator [] "p" "wd" opW7 "n1" oW7).1 ≠ some 1 ∧
    (execute_operator [] "p" "wd" opW7 "n1" oW7).2 ≠ [] := by
  refine ⟨by rfl, by decide, by decide⟩

/-- C8 (amended): `_init_paths` creates the output root (always), and a
missing input root or workspace root each produce only a logged
warning — the function always returns; the workspace root itself is not
created. -/
theorem init_paths_creates_only_output (fs : String → Bool)
    (i o w : String) :
    (BasicRunner.init_paths fs i o w).1 o = true ∧
    (fs i = false →
      InitEvent.warnMissingInput i ∈ (BasicRunner.init_paths fs i o w).2) ∧
    (fs w = false →
      InitEvent.warnMissingWorkspace w ∈
        (BasicRunner.init_paths fs i o w).2 ∧
      (w ≠ o → (BasicRunner.init_paths fs i o w).1 w = false)) := by
  refine ⟨?_, ?_, ?_⟩
  · simp [BasicRunner.init_paths]
  · intro hi
    simp [BasicRunner.init_paths, hi]
  · intro hw
    refine ⟨by simp [BasicRunner.init_paths, hw], ?_⟩
    intro hwo
    simp [BasicRunner.init_paths, hw, hwo]

/-- Witness for C8: input exists, workspace missing. -/
theorem init_paths_creates_only_output_witness :
    (BasicRunner.init_paths fsW8 "in" "out" "ws").1 "out" = true ∧
    (InitEvent.warnMissingWorkspace "ws" ∈
        (BasicRunner.init_paths fsW8 "in" "out" "ws").2 ∧
      ("ws" ≠ "out" →
        (BasicRunner.init_paths fsW8 "in" "out" "ws").1 "ws" = false)) :=
  ⟨(init_paths_creates_only_output fsW8 "in" "out" "ws").1,
   (init_paths_creates_only_output fsW8 "in" "out" "ws").2.2 (by rfl)⟩

/-- C8 counterexample: with the workspace root absent, `_init_paths`
only warns: afterwards the workspace root still does not exist, so the
claim that construction creates the workspace directory is false (the
output root, by contrast, is created). -/
theorem init_paths_workspace_not_created :
    (BasicRunner.init_paths fsW8 "in" "out" "ws").1 "ws" = false ∧
    InitEvent.warnMissingWorkspace "ws" ∈
      (BasicRunner.init_paths fsW8 "in" "out" "ws").2 ∧
    (BasicRunner.init_paths fsW8 "in" "out" "ws").1 "out" = true := by
  refine ⟨by rfl, by decide, by rfl⟩

/-- C9: for the Conda (prebuilt-archive) variant, a missing
object-storage client makes `install_env` log one warning and return
normally: no error is raised and no download, decompress or repair step
is performed. -/
theorem conda_install_skips_without_s3 (cfg : CondaVirtualEnvConfig)
    (o : CondaOracle) (h : cfg.has_s3_client = false) :
    CondaVirtualEnvConfig.install_env cfg o =
      ([CondaEvent.warnNoS3], none) := by
  unfold CondaVirtualEnvConfig.install_env
  rw [h]
  rfl

/-- Witness for C9 at a concrete client-less Conda config. -/
theorem conda_install_skips_without_s3_witness :
    CondaVirtualEnvConfig.install_env cfgW9 oW9 =
      ([CondaEvent.warnNoS3], none) :=
  conda_install_skips_without_s3 cfgW9 oW9 rfl

/-- A lookup in an extended instance map finds the appended binding
when the key was previously unbound. -/
theorem instLookup_append_self (m : InstanceMap) (k : String × Option String)
    (i : RunnerInstance) (h : instLookup m k = none) :
    instLookup (m ++ [(k, i)]) k = some i := by
  unfold instLookup at h ⊢
  have hm : m.find? (fun p => p.1 = k) = none := by
    cases hf : m.find? (fun p => p.1 = k) with
    | none => rfl
    | some x =>
      rw [hf] at h
      simp at h
  rw [List.find?_append, hm]
  simp [List.find?]

/-- C10: calling a `BasicRunner` subclass constructor a second time
with the same `operator_id` returns the instance cached by the first
call, stores nothing new, and the surviving instance keeps every
attribute from the first call's arguments — the second call's other
arguments are silently discarded. -/
theorem singleton_second_call_returns_first (m : InstanceMap) (cls : String)
    (a1 a2 : CallArgs)
    (hfresh : instLookup m (singletonKey cls a1) = none)
    (hid : a2.operator_id = a1.operator_id) :
    (SingletonMeta.call (SingletonMeta.call m cls a1).1 cls a2).2 =
      (SingletonMeta.call m cls a1).2 ∧
    (SingletonMeta.call (SingletonMeta.call m cls a1).1 cls a2).1 =
      (SingletonMeta.call m cls a1).1 ∧
    (SingletonMeta.call m cls a1).2 = mkInstance a1 := by
  have hkey : singletonKey cls a2 = singletonKey cls a1 := by
    unfold singletonKey
    rw [hid]
  have hcall1 : SingletonMeta.call m cls a1 =
      (m ++ [(singletonKey cls a1, mkInstance a1)], mkInstance a1) := by
    unfold SingletonMeta.call
    dsimp only
    rw [hfresh]
  have hl2 : instLookup (m ++ [(singletonKey cls a1, mkInstance a1)])
      (singletonKey cls a2) = some (mkInstance a1) := by
    rw [hkey]
    exact instLookup_append_self m _ _ hfresh
  have hcall2 : SingletonMeta.call
      (m ++ [(singletonKey cls a1, mkInstance a1)]) cls a2 =
      (m ++ [(singletonKey cls a1, mkInstance a1)], mkInstance a1) := by
    unfold SingletonMeta.call
    dsimp only
    rw [hl2]
  rw [hcall1]
  dsimp only
  rw [hcall2]
  exact ⟨rfl, rfl, rfl⟩

/-- Witness for C10: two concrete constructor calls sharing only the
`operator_id`. -/
theorem singleton_second_call_returns_first_witness :
    (SingletonMeta.call (SingletonMeta.call [] "DataCleaner" a1W).1
        "DataCleaner" a2W).2 =
      (SingletonMeta.call [] "DataCleaner" a1W).2 ∧
    (SingletonMeta.call (SingletonMeta.call [] "DataCleaner" a1W).1
        "DataCleaner" a2W).1 =
      (SingletonMeta.call [] "DataCleaner" a1W).1 ∧
    (SingletonMeta.call [] "DataCleaner" a1W).2 = mkInstance a1W :=
  singleton_second_call_returns_first [] "DataCleaner" a1W a2W
    (by rfl) (by rfl)

end GeneralPipeline
